import Mathlib

/-!
Verification of the k8s-lvm-manager coordination logic.

This development shallowly embeds the operational core of the repository:
the per-node reconciler (`syncPVC`, `ReleaseLV`, `UpdateNodeStatus` in
pkg/manager), the logical-volume resource manager (`SyncLVMStatus`,
`AllocateLV`, `getDevPath` in pkg/manager's LVManager), and the scheduler
extender (`lvmScheduler.Filter` in pkg/scheduler).  Cluster-API calls and
host-tool invocations are modelled by explicit environments recording their
outcomes, and every function returns the trace of host operations it issued
alongside its result, so that ownership and ordering properties can be
stated about the traces.
-/

/-! ## Generic string helpers mirroring the Go standard library -/

/-- Embeds `strings.HasPrefix` at the character-list level. -/
def listIsPre : List Char → List Char → Bool
  | [], _ => true
  | _ :: _, [] => false
  | a :: as, b :: bs => a == b && listIsPre as bs

/-- `strHasPre s p` embeds Go `strings.HasPrefix(s, p)`. -/
def strHasPre (s p : String) : Bool :=
  listIsPre p.data s.data

/-- Character-level splitter: embeds Go `strings.Split` for a one-character
separator (the repository only splits on "/" and ","). -/
def splitCharAux (sep : Char) : List Char → List Char → List (List Char)
  | [], acc => [acc.reverse]
  | c :: cs, acc =>
    if c = sep then acc.reverse :: splitCharAux sep cs []
    else splitCharAux sep cs (c :: acc)

/-- `goSplitSlash1 s` embeds `strings.Split(s, "/")[1]` as used by the
scheduler extender to extract the volume-group name from a domain-scoped
resource key. -/
def goSplitSlash1 (s : String) : String :=
  String.mk ((splitCharAux '/' s.data []).getD 1 [])

/-- Embeds `strings.Split(s, ",")` as used on volume-group tags. -/
def goSplitComma (s : String) : List String :=
  (splitCharAux ',' s.data []).map String.mk

/-- ASCII uppercase of one character, as Go `strings.ToUpper` acts on the
ASCII size strings produced by the volume tools. -/
def asciiUpper (c : Char) : Char :=
  if 'a' ≤ c ∧ c ≤ 'z' then Char.ofNat (c.toNat - 32) else c

/-- Embeds `strings.ToUpper` on the ASCII size strings of this repository. -/
def goToUpper (s : String) : String :=
  String.mk (s.data.map asciiUpper)

/-- Embeds `strings.Replace(s, "-", "--", -1)` at the character level: each
hyphen is replaced by two hyphens. -/
def replDash : List Char → List Char
  | [] => []
  | c :: cs => if c = '-' then '-' :: '-' :: replDash cs else c :: replDash cs

/-- Embeds `strings.Replace(s, "-", "--", -1)` from `getDevPath`. -/
def goDoubleDash (s : String) : String :=
  String.mk (replDash s.data)

/-! ## Annotation maps (Go `map[string]string`)

Annotations are modelled as association lists with first-match lookup;
`annSet` prepends, which gives exactly the Go map's get-after-set
semantics for the observations `annGet?` / `annGet`. -/

/-- A claim or volume annotation map. -/
abbrev AnnMap := List (String × String)

/-- Lookup with presence information: embeds `v, ok := m[k]`. -/
def annGet? : AnnMap → String → Option String
  | [], _ => none
  | (k', v) :: rest, k => if k' = k then some v else annGet? rest k

/-- Lookup with Go's zero-value default: embeds `m[k]` in expression
position (absent key reads as the empty string). -/
def annGet (m : AnnMap) (k : String) : String :=
  (annGet? m k).getD ""

/-- Map update: embeds `m[k] = v`. -/
def annSet (m : AnnMap) (k v : String) : AnnMap :=
  (k, v) :: m

/-- A generic string-keyed map lookup used for the volume-group and
logical-volume maps of the resource manager. -/
def mapGet? {α : Type} : List (String × α) → String → Option α
  | [], _ => none
  | (k', v) :: rest, k => if k' = k then some v else mapGet? rest k

/-- Generic string-keyed map update. -/
def mapSet {α : Type} (m : List (String × α)) (k : String) (v : α) :
    List (String × α) :=
  (k, v) :: m

theorem annGet?_annSet_self (m : AnnMap) (k v : String) :
    annGet? (annSet m k v) k = some v := by
  simp [annGet?, annSet]

theorem annGet?_annSet_ne (m : AnnMap) (k k' v : String) (h : k ≠ k') :
    annGet? (annSet m k v) k' = annGet? m k' := by
  simp [annGet?, annSet, h]

theorem annGet_annSet_self (m : AnnMap) (k v : String) :
    annGet (annSet m k v) k = v := by
  simp [annGet, annGet?_annSet_self]

theorem annGet_annSet_ne (m : AnnMap) (k k' v : String) (h : k ≠ k') :
    annGet (annSet m k v) k' = annGet m k' := by
  simp [annGet, annGet?_annSet_ne m k k' v h]

/-! ## Annotation keys (pkg/util constants) -/

def annNodeKey : String := "volume-provisioner.pingcap.com/node"

def annHostPathKey : String := "volume-provisioner.pingcap.com/hostPath"

def annVGNameKey : String := "volume-provisioner.pingcap.com/vgName"

def annLVNameKey : String := "volume-provisioner.pingcap.com/lvName"

def annLVSizeKey : String := "volume-provisioner.pingcap.com/lvSize"

def annFsTypeKey : String := "volume-provisioner.pingcap.com/fsType"

def annPodNameKey : String := "volume-provisioner.pingcap.com/podName"

def annLVDeletedKey : String := "volume-provisioner.pingcap.com/lvDeleted"

/-! ## Volume Resource Manager data model (pkg/manager LVManager) -/

/-- A physical volume of the assembled topology snapshot. -/
structure PhysicalVolume where
  uuid : String
  name : String
  size : String
  free : String
deriving DecidableEq

/-- A logical volume of the assembled topology snapshot. -/
structure LogicalVolume where
  uuid : String
  name : String
  size : String
  path : String
deriving DecidableEq

/-- A volume group of the assembled topology snapshot, keyed by name in the
manager's map. -/
structure VolumeGroup where
  uuid : String
  name : String
  size : String
  free : String
  tags : List String
  pvs : List (String × PhysicalVolume)
  lvs : List (String × LogicalVolume)
deriving DecidableEq

/-- One row of the `vgs` JSON report. -/
structure VGRow where
  vgUUID : String
  vgName : String
  vgSize : String
  vgFree : String
  lvCount : String
  pvCount : String
  vgTags : String
deriving DecidableEq

/-- One row of the `pvs` JSON report. -/
structure PVRow where
  pvUUID : String
  pvName : String
  vgName : String
  pvSize : String
  pvFree : String
deriving DecidableEq

/-- One row of the `lvs` JSON report. -/
structure LVRow where
  lvUUID : String
  lvName : String
  lvSize : String
  lvPath : String
  vgName : String
deriving DecidableEq

/-- The merged report assembled by `scanLVM` from the three host-tool
invocations (three successive unmarshals into one report value). -/
structure LVMScanReport where
  vg : List VGRow
  pv : List PVRow
  lv : List LVRow
deriving DecidableEq

/-- Outcomes of the three host scans (`vgs`, `pvs`, `lvs`): each either
produces parsed rows or fails to execute / parse with an error message. -/
structure ScanEnv where
  vgScan : Except String (List VGRow)
  pvScan : Except String (List PVRow)
  lvScan : Except String (List LVRow)

/-- Embeds `scanLVM`: runs the `vgs`, `pvs`, `lvs` scans in order and
aborts on the first execution or parse failure. -/
def scanLVM (env : ScanEnv) : Except String LVMScanReport :=
  match env.vgScan with
  | Except.error e => Except.error e
  | Except.ok vgRows =>
    match env.pvScan with
    | Except.error e => Except.error e
    | Except.ok pvRows =>
      match env.lvScan with
      | Except.error e => Except.error e
      | Except.ok lvRows => Except.ok ⟨vgRows, pvRows, lvRows⟩

/-- Inserts one physical-volume row into the volume-group map, as the PV
loop of `SyncLVMStatus` does.  The source writes through the group's shared
PVs map and would fault if the group were absent; tool reports always list
each PV under an existing group, and an absent group leaves the map
unchanged here. -/
def insertPVRow (m : List (String × VolumeGroup)) (pv : PVRow) :
    List (String × VolumeGroup) :=
  match mapGet? m pv.vgName with
  | some g =>
    mapSet m pv.vgName
      { g with pvs := mapSet g.pvs pv.pvName ⟨pv.pvUUID, pv.pvName, pv.pvSize, pv.pvFree⟩ }
  | none => m

/-- Inserts one logical-volume row into the volume-group map, as the LV
loop of `SyncLVMStatus` does. -/
def insertLVRow (m : List (String × VolumeGroup)) (lv : LVRow) :
    List (String × VolumeGroup) :=
  match mapGet? m lv.vgName with
  | some g =>
    mapSet m lv.vgName
      { g with lvs := mapSet g.lvs lv.lvName ⟨lv.lvUUID, lv.lvName, lv.lvSize, lv.lvPath⟩ }
  | none => m

/-- Assembles a fresh volume-group map from a scan report, as the loop body
of `SyncLVMStatus` does. -/
def assembleVGMap (r : LVMScanReport) : List (String × VolumeGroup) :=
  let vgs := r.vg.foldl
    (fun m vg =>
      mapSet m vg.vgName
        ⟨vg.vgUUID, vg.vgName, vg.vgSize, vg.vgFree, goSplitComma vg.vgTags, [], []⟩)
    []
  let vgs := r.pv.foldl insertPVRow vgs
  r.lv.foldl insertLVRow vgs

/-- Embeds `LVManager.SyncLVMStatus` (the Refresh of the spec): on any scan
failure the prior snapshot `m` is returned unchanged with the error; on
success the snapshot is wholly replaced by the freshly assembled map. -/
def syncLVMStatus (m : List (String × VolumeGroup)) (env : ScanEnv) :
    List (String × VolumeGroup) × Except String Unit :=
  match scanLVM env with
  | Except.error e => (m, Except.error e)
  | Except.ok r => (assembleVGMap r, Except.ok ())

/-- Host commands issued by `AllocateLV`. -/
inductive LVMCmd where
  | lvcreate (lvName size vgName : String)
deriving DecidableEq

/-- Embeds `LVManager.AllocateLV`.  `toolOk` is the outcome of the
`lvcreate` host command when one is issued.  The returned list is the trace
of create commands issued; note the snapshot `lvm` is not modified (the
source updates `m.LVM` only in `SyncLVMStatus`). -/
def allocateLV (lvm : List (String × VolumeGroup)) (lvName vgName size : String)
    (toolOk : Bool) : List LVMCmd × Except String Unit :=
  match mapGet? lvm vgName with
  | none => ([], Except.error ("no vg named " ++ vgName))
  | some vg =>
    match mapGet? vg.lvs lvName with
    | some _ => ([], Except.ok ())
    | none =>
      if toolOk then ([LVMCmd.lvcreate lvName size vgName], Except.ok ())
      else ([LVMCmd.lvcreate lvName size vgName], Except.error "lvcreate failed")

/-- Embeds `getDevPath`: the device-mapper path of a logical volume,
`path.Join` of the fixed device directory with the two dash-doubled names
joined by a single hyphen. -/
def getDevPath (lvName vgName : String) : String :=
  "/dev/mapper/" ++ goDoubleDash vgName ++ "-" ++ goDoubleDash lvName

/-! ## Scheduler extender (pkg/scheduler lvmScheduler.Filter) -/

/-- The extender filter result: an optional node-name list and the Go
zero-defaulted error string of `ExtenderFilterResult`. -/
structure FilterResult where
  nodes : Option (List String)
  errorMsg : String
deriving DecidableEq

/-- The storage claim as the scheduler sees it. -/
structure PVC where
  ns : String
  name : String
  storageClassName : String
  annotations : AnnMap
deriving DecidableEq

/-- A pod container, reduced to its resource-request list (key, quantity
string), in declaration order. -/
structure Container where
  requests : List (String × String)
deriving DecidableEq

/-- A pod, reduced to the fields `Filter` reads: namespace, name, volume
claim references (none for non-claim volumes) and containers. -/
structure Pod where
  ns : String
  name : String
  volumes : List (Option String)
  containers : List Container
deriving DecidableEq

/-- The outcome of one `Filter` call: a Go error, or a filter result
together with the claim update persisted through the cluster API (none when
no update was issued). -/
inductive FilterOut where
  | err (msg : String)
  | ok (res : FilterResult) (updated : Option PVC)
deriving DecidableEq

/-- First claim name referenced by the pod's volumes, as the volume loop of
`Filter` computes it (empty string when no volume references a claim). -/
def firstPVCName : List (Option String) → String
  | [] => ""
  | some n :: _ => n
  | none :: rest => firstPVCName rest

/-- First resource request of one container whose key carries the domain
prefix, as the inner request loop of `Filter` (which breaks on the first
match) computes it. -/
def findDomainReq (domain : String) : List (String × String) → Option (String × String)
  | [] => none
  | r :: rest => if strHasPre r.1 domain then some r else findDomainReq domain rest

/-- Derives (volume-group name, size) from the pod's containers, as the
nested request loops of `Filter` do: the inner loop breaks on the first
domain-prefixed request, the outer loop continues, so a later container's
match overwrites an earlier one. -/
def deriveVGSize (domain : String) (cs : List Container) : String × String :=
  cs.foldl
    (fun acc c =>
      match findDomainReq domain c.requests with
      | some (rn, q) => (goSplitSlash1 rn, q)
      | none => acc)
    ("", "")

/-- First candidate node whose name equals the recorded node annotation, as
the candidate loop of the already-placed branch of `Filter` computes it. -/
def findNodeByName : List String → String → Option String
  | [], _ => none
  | n :: rest, x => if n = x then some n else findNodeByName rest x

/-- Embeds `lvmScheduler.Filter`.  The fetched claim `pvc` stands for the
successful `Get` on the claim named by the pod's first claim volume;
`updateOk` is the outcome of the claim `Update` when one is issued. -/
def lvmFilter (domainName storageClass : String) (updateOk : Bool) (pod : Pod)
    (nodes : List String) (pvc : PVC) : FilterOut :=
  let pvcName := firstPVCName pod.volumes
  if pvcName = "" then FilterOut.err "empty pvc"
  else if pvc.storageClassName ≠ storageClass then
    FilterOut.ok ⟨some nodes, ""⟩ none
  else
    let ann := pvc.annotations
    let annNode := annGet ann annNodeKey
    let annHostPath := annGet ann annHostPathKey
    if annNode ≠ "" ∧ annHostPath ≠ "" then
      match findNodeByName nodes annNode with
      | some n => FilterOut.ok ⟨some [n], ""⟩ none
      | none =>
        FilterOut.ok
          ⟨none, "invalid nodeName: " ++ annNode ++ " and hostPath: " ++ annHostPath⟩
          none
    else
      let vgSize := deriveVGSize domainName pod.containers
      let nodeName := if annGet ann annNodeKey = "" then nodes.headD "" else annGet ann annNodeKey
      let lvName := pod.ns ++ "-" ++ pvcName
      let ann1 := annSet ann annLVNameKey lvName
      let ann2 := annSet ann1 annVGNameKey vgSize.1
      let ann3 := annSet ann2 annNodeKey nodeName
      let ann4 := annSet ann3 annPodNameKey pod.name
      let ann5 := annSet ann4 annHostPathKey ""
      let ann6 := annSet ann5 annLVSizeKey vgSize.2
      if updateOk then
        FilterOut.ok ⟨none, "waiting for pvc bound with pv"⟩
          (some { pvc with annotations := ann6 })
      else FilterOut.err "failed to update pvc"

/-! ## Node Reconciler (pkg/manager `Controller`) -/

/-- Calls the reconciler issues against the resource manager, with their
arguments as recorded at the call sites. -/
inductive LVAct where
  | alloc (lvName vgName size : String)
  | format (lvName vgName fsType : String)
  | mount (lvName vgName : String)
  | unmount (lvName : String)
  | remove (lvName vgName : String)
deriving DecidableEq

/-- Outcomes of the host-tool and cluster-API calls one `syncPVC` pass may
issue. -/
structure SyncEnv where
  allocRes : Except String Unit
  formatRes : Except String Unit
  mountRes : Except String Unit
  updateOk : Bool

deriving instance DecidableEq for Except

/-- Result of one `syncPVC` pass on an existing claim: the resource-manager
calls issued, the claim update persisted through the cluster API (none when
none succeeded), and the returned error. -/
structure SyncResult where
  acts : List LVAct
  updated : Option PVC
  res : Except String Unit
deriving DecidableEq

/-- Embeds the existing-claim path of `Controller.syncPVC`: act only when
the node annotation is present and equals this node and the hostPath
annotation is present and empty; then Allocate, Format, Mount with the
recorded volumeGroup/logicalVolumeName/size annotations and the hardcoded
filesystem type "ext4" (the fsType annotation read is commented out in the
source); on success write the mount path into hostPath and update the
claim. -/
def syncPVC (nodeName baseDir : String) (env : SyncEnv) (pvc : PVC) : SyncResult :=
  match annGet? pvc.annotations annNodeKey with
  | none => ⟨[], none, Except.ok ()⟩
  | some n =>
    if n ≠ nodeName then ⟨[], none, Except.ok ()⟩
    else
      match annGet? pvc.annotations annHostPathKey with
      | none => ⟨[], none, Except.ok ()⟩
      | some hp =>
        if hp ≠ "" then ⟨[], none, Except.ok ()⟩
        else
          let vgName := annGet pvc.annotations annVGNameKey
          let lvName := annGet pvc.annotations annLVNameKey
          let size := annGet pvc.annotations annLVSizeKey
          let fsType := "ext4"
          match env.allocRes with
          | Except.error e => ⟨[LVAct.alloc lvName vgName size], none, Except.error e⟩
          | Except.ok _ =>
            match env.formatRes with
            | Except.error e =>
              ⟨[LVAct.alloc lvName vgName size, LVAct.format lvName vgName fsType],
               none, Except.error e⟩
            | Except.ok _ =>
              match env.mountRes with
              | Except.error e =>
                ⟨[LVAct.alloc lvName vgName size, LVAct.format lvName vgName fsType,
                  LVAct.mount lvName vgName], none, Except.error e⟩
              | Except.ok _ =>
                let hostPath := baseDir ++ "/" ++ lvName
                let ann2 := annSet pvc.annotations annHostPathKey hostPath
                if env.updateOk then
                  ⟨[LVAct.alloc lvName vgName size, LVAct.format lvName vgName fsType,
                    LVAct.mount lvName vgName],
                   some { pvc with annotations := ann2 }, Except.ok ()⟩
                else
                  ⟨[LVAct.alloc lvName vgName size, LVAct.format lvName vgName fsType,
                    LVAct.mount lvName vgName], none, Except.error "failed to update PVC"⟩

/-- One JSON-patch operation as marshalled by `UpdateNodeStatus`. -/
structure NodePatch where
  op : String
  path : String
  value : String
deriving DecidableEq

/-- Embeds `Controller.UpdateNodeStatus`: the patch list sent to the node
status subresource, or none when no patch is issued (empty map or tracked
group "loopback-disk" absent). -/
def updateNodeStatus (domainName : String) (vgs : List (String × VolumeGroup)) :
    Option (List NodePatch) :=
  if vgs = [] then none
  else
    match mapGet? vgs "loopback-disk" with
    | none => none
    | some vg =>
      some [⟨"add", "/status/capacity/" ++ domainName ++ "~1" ++ vg.name,
             goToUpper vg.size⟩]

/-- A persistent volume (the BoundVolume of the spec) as `ReleaseLV` sees
it: name, optional claim reference (namespace, name) and annotations. -/
structure BoundPV where
  name : String
  claimRef : Option (String × String)
  annotations : AnnMap
deriving DecidableEq

/-- First listed volume whose claim reference matches the deleted claim, as
the PV loop of `ReleaseLV` (which breaks on the first match) computes it. -/
def findPV : List BoundPV → String → String → Option BoundPV
  | [], _, _ => none
  | pv :: rest, ns, name =>
    match pv.claimRef with
    | some (a, b) => if a = ns ∧ b = name then some pv else findPV rest ns name
    | none => findPV rest ns name

/-- Outcome of one `Update` attempt while marking a volume deleted. -/
inductive UpdRes where
  | ok
  | conflict
  | otherErr
deriving DecidableEq

/-- Poll interval of the mark-deleted retry loop, in seconds
(`wait.Poll(3*time.Second, ...)`). -/
def pollInterval : Nat := 3

/-- Wall-clock timeout of the mark-deleted retry loop, in seconds
(`wait.Poll(..., 30*time.Second, ...)`). -/
def pollTimeout : Nat := 30

/-- Number of condition attempts the poll loop makes: one per interval tick
until the timeout elapses. -/
def pollFuel : Nat := pollTimeout / pollInterval

/-- The timeout error surfaced by the poll combinator. -/
def pollTimeoutMsg : String := "timed out waiting for the condition"

/-- Result of the bounded retry loop: how many update attempts were made
and the returned error, if any. -/
structure PollOutcome where
  attempts : Nat
  res : Except String Unit
deriving DecidableEq

/-- Embeds the `wait.Poll` retry loop of `ReleaseLV` by the combinator's
contract: the condition runs once per interval tick until the timeout, so
at most `pollFuel` times.  The condition body sets the deleted annotation
and attempts the update; on success it stops the loop, on a conflict it
re-reads the volume and retries, and on any other error it also retries.
`upd n` is the outcome of attempt `n`. -/
def markDeletedLoop (upd : Nat → UpdRes) : Nat → Nat → PollOutcome
  | 0, used => ⟨used, Except.error pollTimeoutMsg⟩
  | Nat.succ k, used =>
    match upd used with
    | UpdRes.ok => ⟨used + 1, Except.ok ()⟩
    | UpdRes.conflict => markDeletedLoop upd k (used + 1)
    | UpdRes.otherErr => markDeletedLoop upd k (used + 1)

/-- Outcomes of the host-tool and cluster-API calls `ReleaseLV` may
issue. -/
structure ReleaseEnv where
  unmountRes : Except String Unit
  removeRes : Except String Unit
  updSeq : Nat → UpdRes

/-- Embeds `Controller.ReleaseLV` for a deleted claim `ns`/`pvcName`:
locate the bound volume by claim reference; skip (success, no host
operation) when none is found or when its owner-node annotation differs
from this reconciler's node; otherwise unmount and remove the logical
volume recorded in its annotations and mark it deleted through the bounded
retry loop.  Returns the trace of unmount/remove calls issued and the
result. -/
def releaseLV (nodeName : String) (pvs : List BoundPV) (ns pvcName : String)
    (env : ReleaseEnv) : List LVAct × Except String Unit :=
  match findPV pvs ns pvcName with
  | none => ([], Except.ok ())
  | some pv =>
    if annGet pv.annotations annNodeKey ≠ nodeName then ([], Except.ok ())
    else
      let lvName := annGet pv.annotations annLVNameKey
      let vgName := annGet pv.annotations annVGNameKey
      match env.unmountRes with
      | Except.error e => ([LVAct.unmount lvName], Except.error e)
      | Except.ok _ =>
        match env.removeRes with
        | Except.error e =>
          ([LVAct.unmount lvName, LVAct.remove lvName vgName], Except.error e)
        | Except.ok _ =>
          ([LVAct.unmount lvName, LVAct.remove lvName vgName],
           (markDeletedLoop env.updSeq pollFuel 0).res)

/-! ## Claim C9: device-path determinism -/

/-- The claim-side formulation of the device-mapper name transform: every
hyphen of the name is doubled, other characters are kept. -/
def specDoubleHyphens (s : String) : String :=
  String.mk (s.data.flatMap (fun c => if c = '-' then ['-', '-'] else [c]))

theorem replDash_eq_flatMap (cs : List Char) :
    replDash cs = cs.flatMap (fun c => if c = '-' then ['-', '-'] else [c]) := by
  induction cs with
  | nil => rfl
  | cons c cs ih => by_cases h : c = '-' <;> simp [replDash, h, ih]

/-- C9: device-path computation is a pure function of the two names: every
hyphen inside the group name and the volume name is doubled, the two
transformed names are joined by a single hyphen as vg-lv, rooted at the
fixed directory /dev/mapper; in particular group "my-vg" and volume "data"
give /dev/mapper/my--vg-data. -/
theorem C9_device_path_determinism :
    (∀ lvName vgName : String,
        getDevPath lvName vgName =
          "/dev/mapper/" ++ specDoubleHyphens vgName ++ "-" ++ specDoubleHyphens lvName) ∧
    getDevPath "data" "my-vg" = "/dev/mapper/my--vg-data" := by
  constructor
  · intro lvName vgName
    simp [getDevPath, goDoubleDash, specDoubleHyphens, replDash_eq_flatMap]
  · rfl

/-! ## Claim C3: node capacity patch -/

/-- A tracked volume group whose free size differs from its total size,
exhibiting which of the two `UpdateNodeStatus` publishes. -/
def c3vg : VolumeGroup :=
  ⟨"uuid-1", "loopback-disk", "1g", "512m", [""], [], []⟩

/-- C3 counterexample: for tracked group "loopback-disk" with free size
"512m" and total size "1g", the produced patch value is "1G" — the
upper-cased TOTAL size (`strings.ToUpper(vg.Size)` in the source) — not
the upper-cased free size "512M" the claim states. -/
theorem C3_counterexample :
    c3vg.free = "512m" ∧
    updateNodeStatus "pingcap.com" [("loopback-disk", c3vg)] =
      some [⟨"add", "/status/capacity/pingcap.com~1loopback-disk", "1G"⟩] ∧
    goToUpper c3vg.free ≠ "1G" := by
  refine ⟨rfl, by decide, by decide⟩

/-- C3 (amended): for every volume-group map containing the tracked group
"loopback-disk", UpdateNodeStatus builds exactly one JSON-patch operation
op "add" at path /status/capacity/<domain>~1<vgName> whose value is the
group's TOTAL size with the unit string upper-cased (not the free size);
if the tracked group is absent the call is a no-op returning success. -/
theorem C3_amended_total_size_patch (domainName : String)
    (vgs : List (String × VolumeGroup)) :
    (∀ vg, mapGet? vgs "loopback-disk" = some vg →
        updateNodeStatus domainName vgs =
          some [⟨"add", "/status/capacity/" ++ domainName ++ "~1" ++ vg.name,
                 goToUpper vg.size⟩]) ∧
    (mapGet? vgs "loopback-disk" = none → updateNodeStatus domainName vgs = none) := by
  constructor
  · intro vg h
    have hne : vgs ≠ [] := by
      intro he
      rw [he] at h
      simp [mapGet?] at h
    simp [updateNodeStatus, hne, h]
  · intro h
    by_cases he : vgs = []
    · simp [updateNodeStatus, he]
    · simp [updateNodeStatus, he, h]

/-- Witness for C3 (amended) at the concrete tracked group `c3vg`. -/
theorem C3_amended_total_size_patch_witness :
    updateNodeStatus "pingcap.com" [("loopback-disk", c3vg)] =
      some [⟨"add", "/status/capacity/pingcap.com~1loopback-disk", "1G"⟩] := by
  have h := (C3_amended_total_size_patch "pingcap.com" [("loopback-disk", c3vg)]).1
    c3vg (by decide)
  exact h.trans (by decide)

/-! ## Claim C4: Allocate idempotence -/

/-- A snapshot that knows group "vg1" with no logical volume recorded. -/
def c4vg : VolumeGroup := ⟨"uuid-vg1", "vg1", "30g", "30g", [""], [], []⟩

/-- The manager snapshot for the C4 scenario. -/
def c4lvm : List (String × VolumeGroup) := [("vg1", c4vg)]

/-- A logical volume as recorded by a Refresh after a successful create. -/
def c4lvRec : LogicalVolume := ⟨"uuid-lv1", "lv1", "10g", "/dev/vg1/lv1"⟩

/-- The same group with "lv1" recorded in the snapshot. -/
def c4vgFull : VolumeGroup :=
  ⟨"uuid-vg1", "vg1", "30g", "20g", [""], [], [("lv1", c4lvRec)]⟩

/-- C4 counterexample: on snapshot `c4lvm` (group "vg1" known, "lv1" not
recorded) a first Allocate succeeds and issues the lvcreate command;
`AllocateLV` never modifies the snapshot (only `SyncLVMStatus` writes
`m.LVM`), so a second Allocate with the same arguments runs on the same
snapshot and again issues the create command — not the command-free no-op
the claim states — and when the host tool rejects the duplicate create the
second call returns an error. -/
theorem C4_counterexample :
    allocateLV c4lvm "lv1" "vg1" "10g" true =
      ([LVMCmd.lvcreate "lv1" "10g" "vg1"], Except.ok ()) ∧
    (allocateLV c4lvm "lv1" "vg1" "10g" true).1 ≠ [] ∧
    (allocateLV c4lvm "lv1" "vg1" "10g" false).2 =
      Except.error "lvcreate failed" := by
  refine ⟨by decide, by decide, by decide⟩

/-- C4 (amended): Allocate is idempotent relative to the manager's topology
snapshot: when the group is known and the LV name is already recorded in
the snapshot, Allocate succeeds as a no-op issuing no create command; when
the LV name is not recorded, Allocate issues the create command — so a
second Allocate right after a first successful creating Allocate issues
the create again, and is a no-op only once a Refresh has recorded the LV. -/
theorem C4_amended_snapshot_idempotence (lvm : List (String × VolumeGroup))
    (lvName vgName size : String) (toolOk : Bool) (vg : VolumeGroup)
    (hvg : mapGet? lvm vgName = some vg) :
    (∀ l, mapGet? vg.lvs lvName = some l →
        allocateLV lvm lvName vgName size toolOk = ([], Except.ok ())) ∧
    (mapGet? vg.lvs lvName = none →
        (allocateLV lvm lvName vgName size toolOk).1 =
          [LVMCmd.lvcreate lvName size vgName]) := by
  constructor
  · intro l h
    simp [allocateLV, hvg, h]
  · intro h
    by_cases ht : toolOk <;> simp [allocateLV, hvg, h, ht]

/-- Witness for C4 (amended): with "lv1" recorded under "vg1" in the
snapshot, Allocate is a no-op success. -/
theorem C4_amended_snapshot_idempotence_witness :
    allocateLV [("vg1", c4vgFull)] "lv1" "vg1" "10g" true = ([], Except.ok ()) :=
  (C4_amended_snapshot_idempotence [("vg1", c4vgFull)] "lv1" "vg1" "10g" true
    c4vgFull (by decide)).1 c4lvRec (by decide)

/-! ## Claim C5: Refresh atomicity -/

/-- C5: Refresh is atomic on failure: if any of the three scans (volume
groups, physical volumes, logical volumes) fails to execute or parse,
SyncLVMStatus returns an error and the VolumeGroup map is exactly the prior
snapshot; only when all three scans succeed is the map wholly replaced by
the freshly assembled one. -/
theorem C5_refresh_atomic (m : List (String × VolumeGroup)) (env : ScanEnv) :
    ((∃ e, env.vgScan = Except.error e) ∨ (∃ e, env.pvScan = Except.error e) ∨
        (∃ e, env.lvScan = Except.error e) →
      (syncLVMStatus m env).1 = m ∧
        ∃ e, (syncLVMStatus m env).2 = Except.error e) ∧
    (∀ vgRows pvRows lvRows,
        env.vgScan = Except.ok vgRows → env.pvScan = Except.ok pvRows →
        env.lvScan = Except.ok lvRows →
        syncLVMStatus m env = (assembleVGMap ⟨vgRows, pvRows, lvRows⟩, Except.ok ())) := by
  cases env with
  | mk v p l =>
    constructor
    · intro h
      cases v with
      | error e => exact ⟨rfl, e, rfl⟩
      | ok vr =>
        cases p with
        | error e => exact ⟨rfl, e, rfl⟩
        | ok pr =>
          cases l with
          | error e => exact ⟨rfl, e, rfl⟩
          | ok lr =>
            rcases h with ⟨e, he⟩ | ⟨e, he⟩ | ⟨e, he⟩ <;> simp at he
    · intro vr pr lr hv hp hl
      simp only at hv hp hl
      subst hv
      subst hp
      subst hl
      rfl

/-- Witness for C5 at a concrete failing middle scan: the prior snapshot
with group "vg1" is retained and the parse error surfaced. -/
theorem C5_refresh_atomic_witness :
    (syncLVMStatus [("vg1", c4vg)]
        ⟨Except.ok [], Except.error "unexpected end of JSON input", Except.ok []⟩).1 =
      [("vg1", c4vg)] ∧
    ∃ e, (syncLVMStatus [("vg1", c4vg)]
        ⟨Except.ok [], Except.error "unexpected end of JSON input", Except.ok []⟩).2 =
      Except.error e :=
  (C5_refresh_atomic [("vg1", c4vg)]
      ⟨Except.ok [], Except.error "unexpected end of JSON input", Except.ok []⟩).1
    (Or.inr (Or.inl ⟨"unexpected end of JSON input", rfl⟩))

/-! ## Claim C6: bounded conflict-retry loop -/

theorem markDeletedLoop_conflicts (upd : Nat → UpdRes)
    (h : ∀ n, upd n ≠ UpdRes.ok) :
    ∀ k s, markDeletedLoop upd k s = ⟨s + k, Except.error pollTimeoutMsg⟩ := by
  intro k
  induction k with
  | zero => intro s; rfl
  | succ k ih =>
    intro s
    have harith : s + 1 + k = s + (k + 1) := by omega
    cases hu : upd s with
    | ok => exact absurd hu (h s)
    | conflict =>
      simp only [markDeletedLoop, hu, ih (s + 1), harith]
    | otherErr =>
      simp only [markDeletedLoop, hu, ih (s + 1), harith]

theorem markDeletedLoop_firstOk (upd : Nat → UpdRes) :
    ∀ i k s, i < k → (∀ j, j < i → upd (s + j) ≠ UpdRes.ok) →
      upd (s + i) = UpdRes.ok →
      markDeletedLoop upd k s = ⟨s + i + 1, Except.ok ()⟩ := by
  intro i
  induction i with
  | zero =>
    intro k s hk _ hok
    cases k with
    | zero => omega
    | succ k =>
      rw [Nat.add_zero] at hok
      rw [markDeletedLoop, hok]
  | succ i ih =>
    intro k s hk hne hok
    cases k with
    | zero => omega
    | succ k =>
      have h0 : upd s ≠ UpdRes.ok := by
        have := hne 0 (Nat.succ_pos i)
        rwa [Nat.add_zero] at this
      have hne' : ∀ j, j < i → upd (s + 1 + j) ≠ UpdRes.ok := by
        intro j hj
        have := hne (j + 1) (by omega)
        have harith : s + (j + 1) = s + 1 + j := by omega
        rwa [harith] at this
      have hok' : upd (s + 1 + i) = UpdRes.ok := by
        have harith : s + (i + 1) = s + 1 + i := by omega
        rwa [harith] at hok
      have hres := ih k (s + 1) (by omega) hne' hok'
      have harith2 : s + 1 + i + 1 = s + (i + 1) + 1 := by omega
      cases hu : upd s with
      | ok => exact absurd hu h0
      | conflict =>
        simp only [markDeletedLoop, hu, hres, harith2]
      | otherErr =>
        simp only [markDeletedLoop, hu, hres, harith2]

/-- C6: the mark-BoundVolume-deleted retry loop terminates: when every
update attempt conflicts, the loop (which re-reads the object on each
conflict per the source) makes exactly the number of attempts allowed by
the configured 30-second timeout at the 3-second poll interval and then
reports the timeout failure to the caller; on the first successful update
it stops with success. -/
theorem C6_retry_bound (upd : Nat → UpdRes) :
    ((∀ n, upd n = UpdRes.conflict) →
        markDeletedLoop upd pollFuel 0 = ⟨pollFuel, Except.error pollTimeoutMsg⟩ ∧
        pollFuel * pollInterval = pollTimeout) ∧
    (∀ i, i < pollFuel → (∀ j, j < i → upd j ≠ UpdRes.ok) → upd i = UpdRes.ok →
        markDeletedLoop upd pollFuel 0 = ⟨i + 1, Except.ok ()⟩) := by
  constructor
  · intro h
    refine ⟨?_, by decide⟩
    have hne : ∀ n, upd n ≠ UpdRes.ok := by
      intro n
      rw [h n]
      intro hc
      cases hc
    have := markDeletedLoop_conflicts upd hne pollFuel 0
    rwa [Nat.zero_add] at this
  · intro i hi hne hok
    have := markDeletedLoop_firstOk upd i pollFuel 0 hi
      (fun j hj => by rw [Nat.zero_add]; exact hne j hj)
      (by rwa [Nat.zero_add])
    rwa [Nat.zero_add] at this

/-- Witness for C6: with every attempt conflicting, the loop stops after
exactly `pollFuel` attempts with the timeout error. -/
theorem C6_retry_bound_witness :
    markDeletedLoop (fun _ => UpdRes.conflict) pollFuel 0 =
      ⟨pollFuel, Except.error pollTimeoutMsg⟩ :=
  ((C6_retry_bound (fun _ => UpdRes.conflict)).1 (fun _ => rfl)).1

/-! ## Claim C1: ownership safety of the release path -/

/-- C1: for every deleted claim processed by the release path, if the
located bound volume's owner-node annotation differs from this
reconciler's node, no unmount and no remove is issued and the call returns
success as a skip; conversely any unmount/remove issued implies the located
volume's owner-node annotation equals this node. -/
theorem C1_ownership_safety (nodeName ns pvcName : String) (pvs : List BoundPV)
    (env : ReleaseEnv) :
    (∀ pv, findPV pvs ns pvcName = some pv →
        annGet pv.annotations annNodeKey ≠ nodeName →
        releaseLV nodeName pvs ns pvcName env = ([], Except.ok ())) ∧
    ((releaseLV nodeName pvs ns pvcName env).1 ≠ [] →
        ∃ pv, findPV pvs ns pvcName = some pv ∧
          annGet pv.annotations annNodeKey = nodeName) := by
  constructor
  · intro pv hf hne
    simp [releaseLV, hf, hne]
  · intro hne
    cases hf : findPV pvs ns pvcName with
    | none => simp [releaseLV, hf] at hne
    | some pv =>
      by_cases ho : annGet pv.annotations annNodeKey = nodeName
      · exact ⟨pv, rfl, ho⟩
      · simp [releaseLV, hf, ho] at hne

/-- A bound volume owned by node-b, located by the claim ns1/claim1. -/
def c1pv : BoundPV :=
  ⟨"pv-1", some ("ns1", "claim1"),
   [(annNodeKey, "node-b"), (annLVNameKey, "ns1-claim1"), (annVGNameKey, "vg1")]⟩

/-- The release environment for the C1 witness (all calls would succeed). -/
def c1env : ReleaseEnv := ⟨Except.ok (), Except.ok (), fun _ => UpdRes.ok⟩

/-- Witness for C1: the reconciler on node-a skips the volume owned by
node-b, issuing no host operation. -/
theorem C1_ownership_safety_witness :
    releaseLV "node-a" [c1pv] "ns1" "claim1" c1env = ([], Except.ok ()) :=
  (C1_ownership_safety "node-a" "ns1" "claim1" [c1pv] c1env).1 c1pv (by decide)
    (by decide)

/-! ## Claim C2: provisioning path of Sync -/

/-- A claim assigned to node-a, not yet provisioned, recording fsType
"xfs". -/
def c2pvc : PVC :=
  ⟨"ns1", "claim1", "lvm-volume-provisioner",
   [(annNodeKey, "node-a"), (annHostPathKey, ""), (annVGNameKey, "vg1"),
    (annLVNameKey, "ns1-claim1"), (annLVSizeKey, "10Gi"), (annFsTypeKey, "xfs")]⟩

/-- The sync environment for the C2 scenario: every host call succeeds. -/
def c2env : SyncEnv := ⟨Except.ok (), Except.ok (), Except.ok (), true⟩

/-- C2 counterexample: the claim records fsType "xfs", yet the Format step
runs with the hardcoded "ext4" — the fsType annotation read is commented
out in the source — so Sync does not use the claim's fsType annotation as
the claim states. -/
theorem C2_counterexample :
    annGet c2pvc.annotations annFsTypeKey = "xfs" ∧
    (syncPVC "node-a" "/data" c2env c2pvc).acts =
      [LVAct.alloc "ns1-claim1" "vg1" "10Gi",
       LVAct.format "ns1-claim1" "vg1" "ext4",
       LVAct.mount "ns1-claim1" "vg1"] ∧
    LVAct.format "ns1-claim1" "vg1" "xfs" ∉
      (syncPVC "node-a" "/data" c2env c2pvc).acts := by
  refine ⟨by decide, by decide, by decide⟩

/-- C2 (amended): for every existing claim whose node annotation is present
and equals the reconciler's node and whose hostPath annotation is present
and empty, Sync performs Allocate then Format then Mount using the claim's
recorded volumeGroup, logicalVolumeName and size annotations and the fixed
filesystem type "ext4" (the fsType annotation is ignored), and on success
writes the mount path returned by Mount into the hostPath annotation and
persists the claim update; if any of the three steps fails, Sync returns
that error and writes no annotation. -/
theorem C2_amended_sync_provisions (nodeName baseDir : String) (env : SyncEnv)
    (pvc : PVC)
    (hn : annGet? pvc.annotations annNodeKey = some nodeName)
    (hp : annGet? pvc.annotations annHostPathKey = some "") :
    (∀ e, env.allocRes = Except.error e →
        syncPVC nodeName baseDir env pvc =
          ⟨[LVAct.alloc (annGet pvc.annotations annLVNameKey)
              (annGet pvc.annotations annVGNameKey)
              (annGet pvc.annotations annLVSizeKey)], none, Except.error e⟩) ∧
    (∀ e, env.allocRes = Except.ok () → env.formatRes = Except.error e →
        syncPVC nodeName baseDir env pvc =
          ⟨[LVAct.alloc (annGet pvc.annotations annLVNameKey)
              (annGet pvc.annotations annVGNameKey)
              (annGet pvc.annotations annLVSizeKey),
            LVAct.format (annGet pvc.annotations annLVNameKey)
              (annGet pvc.annotations annVGNameKey) "ext4"],
           none, Except.error e⟩) ∧
    (∀ e, env.allocRes = Except.ok () → env.formatRes = Except.ok () →
        env.mountRes = Except.error e →
        syncPVC nodeName baseDir env pvc =
          ⟨[LVAct.alloc (annGet pvc.annotations annLVNameKey)
              (annGet pvc.annotations annVGNameKey)
              (annGet pvc.annotations annLVSizeKey),
            LVAct.format (annGet pvc.annotations annLVNameKey)
              (annGet pvc.annotations annVGNameKey) "ext4",
            LVAct.mount (annGet pvc.annotations annLVNameKey)
              (annGet pvc.annotations annVGNameKey)],
           none, Except.error e⟩) ∧
    (env.allocRes = Except.ok () → env.formatRes = Except.ok () →
        env.mountRes = Except.ok () → env.updateOk = true →
        syncPVC nodeName baseDir env pvc =
          ⟨[LVAct.alloc (annGet pvc.annotations annLVNameKey)
              (annGet pvc.annotations annVGNameKey)
              (annGet pvc.annotations annLVSizeKey),
            LVAct.format (annGet pvc.annotations annLVNameKey)
              (annGet pvc.annotations annVGNameKey) "ext4",
            LVAct.mount (annGet pvc.annotations annLVNameKey)
              (annGet pvc.annotations annVGNameKey)],
           some { pvc with
                    annotations := annSet pvc.annotations annHostPathKey
                      (baseDir ++ "/" ++ annGet pvc.annotations annLVNameKey) },
           Except.ok ()⟩ ∧
        annGet (annSet pvc.annotations annHostPathKey
            (baseDir ++ "/" ++ annGet pvc.annotations annLVNameKey))
          annHostPathKey =
          baseDir ++ "/" ++ annGet pvc.annotations annLVNameKey) := by
  cases env with
  | mk ar fr mr uo =>
    refine ⟨?_, ?_, ?_, ?_⟩
    · intro e ha
      simp only at ha
      subst ha
      simp [syncPVC, hn, hp]
    · intro e ha hf
      simp only at ha hf
      subst ha
      subst hf
      simp [syncPVC, hn, hp]
    · intro e ha hf hm
      simp only at ha hf hm
      subst ha
      subst hf
      subst hm
      simp [syncPVC, hn, hp]
    · intro ha hf hm hu
      simp only at ha hf hm hu
      subst ha
      subst hf
      subst hm
      subst hu
      exact ⟨by simp [syncPVC, hn, hp], annGet_annSet_self _ _ _⟩

/-- Witness for C2 (amended) on the concrete claim `c2pvc` with every host
call succeeding: the three steps run with the recorded annotations and the
fixed "ext4", and the mount path /data/ns1-claim1 is persisted into the
hostPath annotation. -/
theorem C2_amended_sync_provisions_witness :
    syncPVC "node-a" "/data" c2env c2pvc =
      ⟨[LVAct.alloc "ns1-claim1" "vg1" "10Gi",
        LVAct.format "ns1-claim1" "vg1" "ext4",
        LVAct.mount "ns1-claim1" "vg1"],
       some { c2pvc with
                annotations := annSet c2pvc.annotations annHostPathKey
                  "/data/ns1-claim1" },
       Except.ok ()⟩ := by
  have h := ((C2_amended_sync_provisions "node-a" "/data" c2env c2pvc (by decide)
    (by decide)).2.2.2 rfl rfl rfl rfl).1
  exact h.trans (by decide)

/-! ## Claim C7: first placement -/

/-- The annotation write-back performed by the placement branch of
`lvmFilter`, abbreviated for stating what Filter persists. -/
def filterWriteBack (domainName : String) (pod : Pod) (pvc : PVC)
    (nodeName : String) : AnnMap :=
  annSet (annSet (annSet (annSet (annSet (annSet pvc.annotations annLVNameKey (pod.ns ++ "-" ++ firstPVCName pod.volumes)) annVGNameKey (deriveVGSize domainName pod.containers).1) annNodeKey nodeName) annPodNameKey pod.name) annHostPathKey "") annLVSizeKey (deriveVGSize domainName pod.containers).2

/-- C7: for every Filter call on a pod referencing a claim of the
configured storage class with no node annotation yet, a non-empty
candidate list and container resource requests deriving volume group "vg1"
of quantity "10Gi" under the configured domain, Filter writes onto the
claim the annotations node = first candidate, volumeGroup = "vg1",
logicalVolumeName = namespace-claimName, hostPath = "", podName and
size = "10Gi", and returns the "waiting for pvc bound with pv" error
result rather than a node list. -/
theorem C7_first_placement (storageClass : String) (pod : Pod) (pvc : PVC)
    (n0 : String) (rest : List String)
    (hvol : firstPVCName pod.volumes = pvc.name)
    (hname : pvc.name ≠ "")
    (hsc : pvc.storageClassName = storageClass)
    (hnode : annGet pvc.annotations annNodeKey = "")
    (hreq : deriveVGSize "pingcap.com" pod.containers = ("vg1", "10Gi")) :
    ∃ pvc',
      lvmFilter "pingcap.com" storageClass true pod (n0 :: rest) pvc =
        FilterOut.ok ⟨none, "waiting for pvc bound with pv"⟩ (some pvc') ∧
      annGet pvc'.annotations annNodeKey = n0 ∧
      annGet pvc'.annotations annVGNameKey = "vg1" ∧
      annGet pvc'.annotations annLVNameKey = pod.ns ++ "-" ++ pvc.name ∧
      annGet pvc'.annotations annHostPathKey = "" ∧
      annGet pvc'.annotations annPodNameKey = pod.name ∧
      annGet pvc'.annotations annLVSizeKey = "10Gi" := by
  refine ⟨{ pvc with annotations := filterWriteBack "pingcap.com" pod pvc n0 },
    ?_, ?_, ?_, ?_, ?_, ?_, ?_⟩
  · simp [lvmFilter, filterWriteBack, hvol, hsc, hreq, hnode, if_neg hname]
  · rw [filterWriteBack,
        annGet_annSet_ne _ _ _ _ (by decide), annGet_annSet_ne _ _ _ _ (by decide),
        annGet_annSet_ne _ _ _ _ (by decide), annGet_annSet_self]
  · rw [filterWriteBack, hreq,
        annGet_annSet_ne _ _ _ _ (by decide), annGet_annSet_ne _ _ _ _ (by decide),
        annGet_annSet_ne _ _ _ _ (by decide), annGet_annSet_ne _ _ _ _ (by decide),
        annGet_annSet_self]
  · rw [filterWriteBack, hvol,
        annGet_annSet_ne _ _ _ _ (by decide), annGet_annSet_ne _ _ _ _ (by decide),
        annGet_annSet_ne _ _ _ _ (by decide), annGet_annSet_ne _ _ _ _ (by decide),
        annGet_annSet_ne _ _ _ _ (by decide), annGet_annSet_self]
  · rw [filterWriteBack,
        annGet_annSet_ne _ _ _ _ (by decide), annGet_annSet_self]
  · rw [filterWriteBack,
        annGet_annSet_ne _ _ _ _ (by decide), annGet_annSet_ne _ _ _ _ (by decide),
        annGet_annSet_self]
  · rw [filterWriteBack, hreq, annGet_annSet_self]

/-- The pod of the C7 witness: one claim volume, one container requesting
pingcap.com/vg1 of 10Gi. -/
def c7pod : Pod :=
  ⟨"ns1", "pod1", [some "claim1"], [⟨[("pingcap.com/vg1", "10Gi")]⟩]⟩

/-- The unannotated claim of the C7 witness. -/
def c7pvc : PVC := ⟨"ns1", "claim1", "lvm-volume-provisioner", []⟩

/-- Witness for C7 at a concrete pod, claim and two candidate nodes. -/
theorem C7_first_placement_witness :
    ∃ pvc',
      lvmFilter "pingcap.com" "lvm-volume-provisioner" true c7pod
          ("node-1" :: ["node-2"]) c7pvc =
        FilterOut.ok ⟨none, "waiting for pvc bound with pv"⟩ (some pvc') ∧
      annGet pvc'.annotations annNodeKey = "node-1" ∧
      annGet pvc'.annotations annVGNameKey = "vg1" ∧
      annGet pvc'.annotations annLVNameKey = c7pod.ns ++ "-" ++ c7pvc.name ∧
      annGet pvc'.annotations annHostPathKey = "" ∧
      annGet pvc'.annotations annPodNameKey = c7pod.name ∧
      annGet pvc'.annotations annLVSizeKey = "10Gi" :=
  C7_first_placement "lvm-volume-provisioner" c7pod c7pvc "node-1" ["node-2"]
    (by decide) (by decide) rfl (by decide) (by decide)

/-! ## Claim C8: already-placed claims -/

theorem findNodeByName_mem (nodes : List String) (x : String) (h : x ∈ nodes) :
    findNodeByName nodes x = some x := by
  induction nodes with
  | nil => cases h
  | cons n rest ih =>
    by_cases he : n = x
    · simp [findNodeByName, he]
    · rcases List.mem_cons.mp h with h1 | h2
      · exact absurd h1.symm he
      · simp [findNodeByName, he, ih h2]

theorem findNodeByName_not_mem (nodes : List String) (x : String) (h : x ∉ nodes) :
    findNodeByName nodes x = none := by
  induction nodes with
  | nil => rfl
  | cons n rest ih =>
    have hne : n ≠ x := fun he => h (he ▸ List.mem_cons_self n rest)
    have hrest : x ∉ rest := fun hm => h (List.mem_cons_of_mem n hm)
    simp [findNodeByName, hne, ih hrest]

/-- C8: for every Filter call on a claim of the configured class whose node
and hostPath annotations are both non-empty: if the recorded node is among
the candidates the result is exactly that one node and no error; otherwise
the result carries the explicit scheduling-error string and no node list;
in both cases the claim is not mutated. -/
theorem C8_already_placed (domainName storageClass : String) (updateOk : Bool)
    (pod : Pod) (nodes : List String) (pvc : PVC)
    (hvol : firstPVCName pod.volumes ≠ "")
    (hsc : pvc.storageClassName = storageClass)
    (hnode : annGet pvc.annotations annNodeKey ≠ "")
    (hhp : annGet pvc.annotations annHostPathKey ≠ "") :
    (annGet pvc.annotations annNodeKey ∈ nodes →
        lvmFilter domainName storageClass updateOk pod nodes pvc =
          FilterOut.ok ⟨some [annGet pvc.annotations annNodeKey], ""⟩ none) ∧
    (annGet pvc.annotations annNodeKey ∉ nodes →
        lvmFilter domainName storageClass updateOk pod nodes pvc =
          FilterOut.ok
            ⟨none, "invalid nodeName: " ++ annGet pvc.annotations annNodeKey ++
              " and hostPath: " ++ annGet pvc.annotations annHostPathKey⟩
            none) := by
  constructor
  · intro hmem
    simp [lvmFilter, if_neg hvol, hsc, hnode, hhp, findNodeByName_mem nodes _ hmem]
  · intro hmem
    simp [lvmFilter, if_neg hvol, hsc, hnode, hhp,
      findNodeByName_not_mem nodes _ hmem]

/-- The already-provisioned claim of the C8 witness, pinned to node-2. -/
def c8pvc : PVC :=
  ⟨"ns1", "claim1", "lvm-volume-provisioner",
   [(annNodeKey, "node-2"), (annHostPathKey, "/data/ns1-claim1")]⟩

/-- The pod of the C8 witness. -/
def c8pod : Pod := ⟨"ns1", "pod1", [some "claim1"], []⟩

/-- Witness for C8: the recorded node node-2 is among the candidates and is
returned as the singleton result with no error and no claim update. -/
theorem C8_already_placed_witness :
    lvmFilter "pingcap.com" "lvm-volume-provisioner" true c8pod
      ["node-1", "node-2"] c8pvc = FilterOut.ok ⟨some ["node-2"], ""⟩ none := by
  have h := (C8_already_placed "pingcap.com" "lvm-volume-provisioner" true c8pod
    ["node-1", "node-2"] c8pvc (by decide) rfl (by decide) (by decide)).1 (by decide)
  exact h.trans (by decide)

/-! ## Claim C10: node pinning is stable under Filter re-runs -/

/-- C10: for every Filter call on a claim of the configured class whose
node annotation is already non-empty and whose hostPath annotation reads
empty, the node annotation written back equals the previously recorded
node — the first-candidate selection is not reapplied — and the call
returns the "waiting for pvc bound with pv" error result. -/
theorem C10_node_pinning_stable (domainName storageClass : String) (pod : Pod)
    (nodes : List String) (pvc : PVC)
    (hvol : firstPVCName pod.volumes ≠ "")
    (hsc : pvc.storageClassName = storageClass)
    (hnode : annGet pvc.annotations annNodeKey ≠ "")
    (hhp : annGet pvc.annotations annHostPathKey = "") :
    ∃ pvc',
      lvmFilter domainName storageClass true pod nodes pvc =
        FilterOut.ok ⟨none, "waiting for pvc bound with pv"⟩ (some pvc') ∧
      annGet pvc'.annotations annNodeKey = annGet pvc.annotations annNodeKey := by
  refine ⟨{ pvc with annotations :=
      filterWriteBack domainName pod pvc (annGet pvc.annotations annNodeKey) },
    ?_, ?_⟩
  · simp [lvmFilter, filterWriteBack, if_neg hvol, hsc, hnode, hhp]
  · rw [filterWriteBack,
        annGet_annSet_ne _ _ _ _ (by decide), annGet_annSet_ne _ _ _ _ (by decide),
        annGet_annSet_ne _ _ _ _ (by decide), annGet_annSet_self]

/-- The claim of the C10 witness: pinned to node-2, not yet provisioned. -/
def c10pvc : PVC :=
  ⟨"ns1", "claim1", "lvm-volume-provisioner",
   [(annNodeKey, "node-2"), (annHostPathKey, "")]⟩

/-- The pod of the C10 witness. -/
def c10pod : Pod :=
  ⟨"ns1", "pod1", [some "claim1"], [⟨[("pingcap.com/vg1", "10Gi")]⟩]⟩

/-- Witness for C10: even though node-2 is not the first (or any) current
candidate, the rewritten node annotation still reads node-2. -/
theorem C10_node_pinning_stable_witness :
    ∃ pvc',
      lvmFilter "pingcap.com" "lvm-volume-provisioner" true c10pod ["node-1"]
          c10pvc =
        FilterOut.ok ⟨none, "waiting for pvc bound with pv"⟩ (some pvc') ∧
      annGet pvc'.annotations annNodeKey = annGet c10pvc.annotations annNodeKey :=
  C10_node_pinning_stable "pingcap.com" "lvm-volume-provisioner" c10pod ["node-1"]
    c10pvc (by decide) rfl (by decide) (by decide)
